import Mathlib

/-!
Verification development for the Sales-Analytics-Solution ETL pipeline
(`src/Root/ETL.py`). The pipeline has three stages: `extract_from_raw`
(bronze), `transform_to_silver` (cleaning) and `model_to_gold`
(dimensional modelling). We shallowly embed the two transform stages:
tables are lists of typed rows, cells are an inductive `Cell` type with
an explicit `null` (pandas `NaN`), and the pandas primitives used by the
code (`pd.to_datetime`, `fillna`, `astype(int)`, `drop_duplicates`,
`merge`) are modelled as executable Lean functions. Pandas treats `NaN`
as equal to `NaN` both in `drop_duplicates` and in `merge` join keys;
the embedding mirrors that by making `Cell.null = Cell.null` plain
equality.
-/

namespace ETL

/-- A table cell: pandas `NaN`/`None` (`null`), a string, an integer, or a
parsed datetime (`date`, carrying the timestamp as an integer; strings are
parsed to a numeric stand-in). -/
inductive Cell where
  | null
  | str (s : String)
  | int (n : Int)
  | date (d : Int)
deriving DecidableEq, Repr

/-- One row of the raw/cleaned sales table, with the fields referenced by
`ETL.py`: product identity, customer identity, geography, order date,
quantity and net price. -/
structure SalesRow where
  productKey    : Cell
  productName   : Cell
  brand         : Cell
  color         : Cell
  subcategory   : Cell
  category      : Cell
  customerKey   : Cell
  customerCode  : Cell
  name          : Cell
  education     : Cell
  occupation    : Cell
  city          : Cell
  state         : Cell
  countryRegion : Cell
  continent     : Cell
  orderDate     : Cell
  quantity      : Cell
  netPrice      : Cell
deriving DecidableEq, Repr

/-- One row of the forecast table: a product key and a `Year` value. -/
structure ForecastRow where
  productKey : Cell
  year       : Cell
deriving DecidableEq, Repr

/-- Split a character list on `-` separators (helper for the date parser;
structural recursion so it evaluates in the kernel). -/
def splitDash : List Char → List (List Char)
  | [] => [[]]
  | c :: cs =>
    if c = '-' then [] :: splitDash cs
    else
      match splitDash cs with
      | [] => [[c]]
      | w :: ws => (c :: w) :: ws

/-- Parse a list of decimal digit characters as a `Nat`; `none` if empty or
any character is not a digit. -/
def digitsToNat : List Char → Option Nat
  | [] => none
  | cs => go cs 0
where
  go : List Char → Nat → Option Nat
    | [], acc => some acc
    | c :: cs, acc =>
      if c.isDigit then go cs (acc * 10 + (c.toNat - 48)) else none

/-- Parse a `YYYY-MM-DD` string to a numeric date stand-in
(`y*10000 + m*100 + d`); `none` on anything that does not have that shape.
Models the strings `pd.to_datetime` accepts in this dataset. -/
def parseDateString (s : String) : Option Int :=
  match splitDash s.data with
  | [y, m, d] =>
    match digitsToNat y, digitsToNat m, digitsToNat d with
    | some yn, some mn, some dn =>
      if 1 ≤ mn ∧ mn ≤ 12 ∧ 1 ≤ dn ∧ dn ≤ 31 then
        some ((yn * 10000 + mn * 100 + dn : Nat) : Int)
      else none
    | _, _, _ => none
  | _ => none

/-- Elementwise model of `pd.to_datetime` (ETL.py line 40): `NaN` becomes
`NaT` (kept as `null`), an already-parsed datetime is unchanged, an integer
is interpreted as an epoch timestamp, and a string is parsed strictly —
`none` (a raised error) if it is unparseable. -/
def toDatetime : Cell → Option Cell
  | Cell.null => some Cell.null
  | Cell.date d => some (Cell.date d)
  | Cell.int n => some (Cell.date n)
  | Cell.str s => (parseDateString s).map Cell.date

/-- Elementwise model of `Series.fillna(v)` (ETL.py lines 41-43): replace
`null` by the string `v`, leave every other cell unchanged. -/
def fillna (c : Cell) (v : String) : Cell :=
  match c with
  | Cell.null => Cell.str v
  | c => c

/-- Elementwise model of `Series.astype(int)` (ETL.py line 44): an integer
is unchanged, a string of an integer is converted, `NaN` raises (`none`),
a datetime yields its integer value. -/
def astypeInt : Cell → Option Cell
  | Cell.int n => some (Cell.int n)
  | Cell.str s => s.toInt?.map Cell.int
  | Cell.null => none
  | Cell.date d => some (Cell.int d)

/-- Apply a fallible elementwise operation to a whole column: the first
failing cell aborts the operation (the pandas call raises). -/
def mapOption (f : α → Option β) : List α → Option (List β)
  | [] => some []
  | a :: l =>
    match f a, mapOption f l with
    | some b, some bs => some (b :: bs)
    | _, _ => none

/-- Cleaning of one sales row, combining ETL.py lines 40-43: parse
`OrderDate`, fill `Name` with `"Unknown"`, `Education` and `Occupation`
with `"Not Provided"`. Fails exactly when the date parse fails. -/
def cleanSalesRow (r : SalesRow) : Option SalesRow :=
  (toDatetime r.orderDate).map fun d =>
    { r with
      orderDate := d
      name := fillna r.name "Unknown"
      education := fillna r.education "Not Provided"
      occupation := fillna r.occupation "Not Provided" }

/-- Cleaning of one forecast row (ETL.py line 44): coerce `Year` to an
integer; fails when the value is not integer-representable. -/
def cleanForecastRow (r : ForecastRow) : Option ForecastRow :=
  (astypeInt r.year).map fun y => { r with year := y }

/-- The cleaning-stage errors: `pd.to_datetime` raising on an unparseable
order date, and `astype(int)` raising on a non-integer `Year`. -/
inductive CleanError where
  | malformedDate
  | typeCoercion
deriving DecidableEq, Repr

/-- The function `transform_to_silver` (ETL.py lines 34-50), value level: parse the
sales `OrderDate` column, fill `Name`/`Education`/`Occupation`, coerce the
forecast `Year` column. A raised error aborts the stage (the `Except` is
the propagated exception); date errors are raised first (line 40 runs
before line 44). Persisting the cleaned CSVs is I/O and not modelled. -/
def transform_to_silver (sales : List SalesRow) (forecast : List ForecastRow) :
    Except CleanError (List SalesRow × List ForecastRow) :=
  match mapOption cleanSalesRow sales with
  | none => Except.error CleanError.malformedDate
  | some cs =>
    match mapOption cleanForecastRow forecast with
    | none => Except.error CleanError.typeCoercion
    | some cf => Except.ok (cs, cf)

/-- The two DataFrame objects `run_etl` holds between stages. Python
passes them by reference, so in-place column assignment inside a stage is
visible through the caller's variables. -/
structure Store where
  sales : List SalesRow
  forecast : List ForecastRow
deriving DecidableEq, Repr

/-- The function `transform_to_silver` seen through the caller's references: pandas
column assignment (`df[col] = ...`) mutates the received DataFrame object,
so the function returns the error it raised (if any) together with the
contents the caller's `raw_sales`/`raw_forecast` objects hold afterwards.
A date error (line 40) raises before any assignment; a `Year` error
(line 44) raises after all sales columns were already assigned. -/
def transformInPlace (st : Store) : Option CleanError × Store :=
  match mapOption cleanSalesRow st.sales with
  | none => (some CleanError.malformedDate, st)
  | some cs =>
    match mapOption cleanForecastRow st.forecast with
    | none => (some CleanError.typeCoercion, { st with sales := cs })
    | some cf => (none, { sales := cs, forecast := cf })

/-- A geography identity tuple `(City, State, CountryRegion, Continent)`. -/
structure GeoTuple where
  city          : Cell
  state         : Cell
  countryRegion : Cell
  continent     : Cell
deriving DecidableEq, Repr

/-- The geography projection of a sales row (the four columns
`model_to_gold` selects for `dim_geo` and joins on). -/
def SalesRow.geo (r : SalesRow) : GeoTuple :=
  ⟨r.city, r.state, r.countryRegion, r.continent⟩

/-- A row of `dim_product`: the six product columns selected on
ETL.py line 62. -/
structure ProductDimRow where
  productKey  : Cell
  productName : Cell
  brand       : Cell
  color       : Cell
  subcategory : Cell
  category    : Cell
deriving DecidableEq, Repr

/-- The product projection of a sales row. -/
def SalesRow.productDim (r : SalesRow) : ProductDimRow :=
  ⟨r.productKey, r.productName, r.brand, r.color, r.subcategory, r.category⟩

/-- A row of `dim_customer`: the five customer columns selected on
ETL.py line 63. -/
structure CustomerDimRow where
  customerKey  : Cell
  customerCode : Cell
  name         : Cell
  education    : Cell
  occupation   : Cell
deriving DecidableEq, Repr

/-- The customer projection of a sales row. -/
def SalesRow.customerDim (r : SalesRow) : CustomerDimRow :=
  ⟨r.customerKey, r.customerCode, r.name, r.education, r.occupation⟩

/-- A row of `dim_geo`: the four geography columns plus the synthesized
`GeoKey` (ETL.py lines 65-66). -/
structure GeoDimRow where
  city          : Cell
  state         : Cell
  countryRegion : Cell
  continent     : Cell
  geoKey        : Nat
deriving DecidableEq, Repr

/-- The geography tuple carried by a `dim_geo` row. -/
def GeoDimRow.tuple (g : GeoDimRow) : GeoTuple :=
  ⟨g.city, g.state, g.countryRegion, g.continent⟩

/-- A row of `fact_sales`: exactly the columns the projection on
ETL.py line 70 keeps. -/
structure FactSalesRow where
  productKey  : Cell
  customerKey : Cell
  geoKey      : Nat
  orderDate   : Cell
  quantity    : Cell
  netPrice    : Cell
deriving DecidableEq, Repr

/-- Model of `DataFrame.drop_duplicates()` (keep the first occurrence of
each distinct row, preserving order; pandas treats `NaN` as equal to `NaN`
here, which plain equality on `Cell` captures). `seen` accumulates the
rows already emitted. -/
def dropDupAux [DecidableEq α] (seen : List α) : List α → List α
  | [] => []
  | a :: l =>
    if a ∈ seen then dropDupAux seen l
    else a :: dropDupAux (a :: seen) l

/-- Model of `drop_duplicates` on a whole table. -/
def dropDup [DecidableEq α] (l : List α) : List α :=
  dropDupAux [] l

/-- Model of `dim_geo['GeoKey'] = range(1, len(dim_geo) + 1)` (ETL.py line 66):
attach the surrogate keys `1, 2, ...` to the deduplicated geography tuples
in order. -/
def addGeoKeys (l : List GeoTuple) : List GeoDimRow :=
  (l.zip (List.range' 1 l.length)).map fun p =>
    ⟨p.1.city, p.1.state, p.1.countryRegion, p.1.continent, p.2⟩

/-- The merge predicate of ETL.py line 69: the sales row and the `dim_geo`
row agree on all four of `City`, `State`, `CountryRegion`, `Continent`.
Pandas matches `NaN` join keys with each other, which `Cell` equality
(where `null = null`) captures. -/
def geoMatch (r : SalesRow) (g : GeoDimRow) : Bool :=
  r.city == g.city && r.state == g.state &&
    r.countryRegion == g.countryRegion && r.continent == g.continent

/-- Model of `df_sales.merge(dim_geo, on=['City','State','CountryRegion','Continent'])`
(ETL.py line 69): an inner equality join; for each left row in order, one
output row per matching `dim_geo` row in order (pandas preserves the
left keys' order for an inner merge). -/
def mergeGeo (sales : List SalesRow) (dimGeo : List GeoDimRow) :
    List (SalesRow × GeoDimRow) :=
  sales.flatMap fun r => (dimGeo.filter fun g => geoMatch r g).map fun g => (r, g)

/-- The projection of ETL.py line 70 applied to one merged row. -/
def projectFact (p : SalesRow × GeoDimRow) : FactSalesRow :=
  ⟨p.1.productKey, p.1.customerKey, p.2.geoKey, p.1.orderDate, p.1.quantity,
    p.1.netPrice⟩

/-- The integrity diagnostic printed at ETL.py lines 84-88: either the
success message or the warning naming the number of rows lost. -/
inductive Diag where
  | passed
  | warning (lost : Int)
deriving DecidableEq, Repr

/-- Everything `model_to_gold` produces: the three dimension tables, the
two fact tables, and the printed integrity diagnostic. -/
structure GoldOutput where
  dim_product   : List ProductDimRow
  dim_customer  : List CustomerDimRow
  dim_geo       : List GeoDimRow
  fact_sales    : List FactSalesRow
  fact_forecast : List ForecastRow
  diag          : Diag
deriving Repr

/-- The function `model_to_gold` (ETL.py lines 52-88), value level: deduplicate the
product, customer and geography projections, attach `GeoKey`, inner-join
sales to `dim_geo`, project the fact columns, pass the forecast through
unchanged, and compare the fact row count against the pre-join sales row
count (`input_count`, line 55). Writing the CSVs is I/O and not modelled;
the diagnostic is returned instead of printed. The function is total: the
warning branch does not abort the run. -/
def model_to_gold (sales : List SalesRow) (forecast : List ForecastRow) :
    GoldOutput :=
  let input_count := sales.length
  let dim_product := dropDup (sales.map SalesRow.productDim)
  let dim_customer := dropDup (sales.map SalesRow.customerDim)
  let dim_geo := addGeoKeys (dropDup (sales.map SalesRow.geo))
  let fact_sales := (mergeGeo sales dim_geo).map projectFact
  let diag :=
    if fact_sales.length ≠ input_count then
      Diag.warning ((input_count : Int) - (fact_sales.length : Int))
    else Diag.passed
  ⟨dim_product, dim_customer, dim_geo, fact_sales, forecast, diag⟩

/-- The spec's description of `fact_sales` (spec §4.3): the equality inner
join of the cleaned sales against `dim_geo` on the four geography columns
simultaneously — the Cartesian product filtered by simultaneous equality
of the four columns — projected to
`{ProductKey, CustomerKey, GeoKey, OrderDate, Quantity, Net Price}`. -/
def specFactSales (sales : List SalesRow) (dimGeo : List GeoDimRow) :
    List FactSalesRow :=
  (((sales.product dimGeo).filter fun p =>
      p.1.city == p.2.city && p.1.state == p.2.state &&
        p.1.countryRegion == p.2.countryRegion &&
        p.1.continent == p.2.continent).map
    fun p => ⟨p.1.productKey, p.1.customerKey, p.2.geoKey, p.1.orderDate,
      p.1.quantity, p.1.netPrice⟩)

/-! Concrete sample data, used to instantiate the theorems below on the
kind of rows the raw JSON files contain. -/

/-- A raw sales row with null `Name` and `Education` (the scenario row of
spec §8), with the order date as an epoch integer. -/
def rRaw : SalesRow :=
  ⟨Cell.int 1, Cell.str "Widget", Cell.str "B", Cell.str "Red",
    Cell.str "Sub", Cell.str "Cat", Cell.int 10, Cell.str "C10",
    Cell.null, Cell.null, Cell.str "Eng", Cell.str "A", Cell.str "S1",
    Cell.str "US", Cell.str "NAm", Cell.int 0, Cell.int 2, Cell.str "9.99"⟩

/-- What the Cleaner produces from `rRaw`. -/
def rClean : SalesRow :=
  { rRaw with
    orderDate := Cell.date 0
    name := Cell.str "Unknown"
    education := Cell.str "Not Provided" }

/-- The row `rRaw` with a null `City` (a null geography key). -/
def rNullGeo : SalesRow := { rRaw with city := Cell.null }

/-- The row `rRaw` with an unparseable order-date string. -/
def rBadDate : SalesRow := { rRaw with orderDate := Cell.str "garbage" }

/-- A well-formed forecast row. -/
def fYear : ForecastRow := ⟨Cell.int 1, Cell.int 2023⟩

/-- A forecast row whose `Year` is `NaN` (not integer-representable). -/
def fNullYear : ForecastRow := ⟨Cell.int 1, Cell.null⟩

/-- What one cleaned sales row must look like relative to its raw row:
the order date is the (successful) parse of the raw order date, the three
fill rules are applied to `Name`/`Education`/`Occupation`, and every one
of the remaining fourteen fields is unchanged. -/
def cleanedRowSpec (r r' : SalesRow) : Prop :=
  toDatetime r.orderDate = some r'.orderDate ∧
  r'.name = fillna r.name "Unknown" ∧
  r'.education = fillna r.education "Not Provided" ∧
  r'.occupation = fillna r.occupation "Not Provided" ∧
  r'.productKey = r.productKey ∧ r'.productName = r.productName ∧
  r'.brand = r.brand ∧ r'.color = r.color ∧
  r'.subcategory = r.subcategory ∧ r'.category = r.category ∧
  r'.customerKey = r.customerKey ∧ r'.customerCode = r.customerCode ∧
  r'.city = r.city ∧ r'.state = r.state ∧
  r'.countryRegion = r.countryRegion ∧ r'.continent = r.continent ∧
  r'.quantity = r.quantity ∧ r'.netPrice = r.netPrice

/-- What one cleaned forecast row must look like relative to its raw row:
`Year` is the (successful) integer coercion of the raw `Year`, and the
other field is unchanged. -/
def cleanedForecastSpec (r r' : ForecastRow) : Prop :=
  astypeInt r.year = some r'.year ∧ r'.productKey = r.productKey

/-! Helper lemmas about the embedded pandas primitives. -/

/-- On success `mapOption` preserves length. -/
theorem mapOption_length (f : α → Option β) :
    ∀ {l : List α} {l' : List β}, mapOption f l = some l' → l'.length = l.length
  | [], l', h => by
    simp only [mapOption] at h
    cases h
    rfl
  | a :: l, l', h => by
    simp only [mapOption] at h
    cases hfa : f a with
    | none => rw [hfa] at h; cases h
    | some b =>
      cases hml : mapOption f l with
      | none => rw [hfa, hml] at h; cases h
      | some bs =>
        rw [hfa, hml] at h
        cases h
        simp [mapOption_length f hml]

/-- On success, `mapOption` applied the elementwise operation to the i-th
element to produce the i-th output. -/
theorem mapOption_get (f : α → Option β) :
    ∀ {l : List α} {l' : List β}, mapOption f l = some l' →
      ∀ (i : Nat) (hi : i < l.length) (hi' : i < l'.length),
        f (l.get ⟨i, hi⟩) = some (l'.get ⟨i, hi'⟩)
  | [], _, _, i, hi, _ => absurd hi (by simp)
  | a :: l, l', h, i, hi, hi' => by
    simp only [mapOption] at h
    cases hfa : f a with
    | none => rw [hfa] at h; cases h
    | some b =>
      cases hml : mapOption f l with
      | none => rw [hfa, hml] at h; cases h
      | some bs =>
        rw [hfa, hml] at h
        cases h
        cases i with
        | zero => simpa using hfa
        | succ j =>
          exact mapOption_get f hml j (Nat.lt_of_succ_lt_succ hi)
            (Nat.lt_of_succ_lt_succ hi')

/-- The column operation `mapOption` fails as soon as one element fails. -/
theorem mapOption_eq_none (f : α → Option β) {l : List α}
    (h : ∃ a ∈ l, f a = none) : mapOption f l = none := by
  induction l with
  | nil => simp at h
  | cons a l ih =>
    obtain ⟨x, hx, hfx⟩ := h
    rcases List.mem_cons.mp hx with rfl | hx'
    · simp [mapOption, hfx]
    · rw [mapOption, ih ⟨x, hx', hfx⟩]
      cases f a <;> rfl

/-- If the elementwise operation fixes each of its own outputs, success of
`mapOption` is preserved on its own output. -/
theorem mapOption_idem (f : α → Option α)
    (hf : ∀ a b, f a = some b → f b = some b) :
    ∀ {l l' : List α}, mapOption f l = some l' → mapOption f l' = some l'
  | [], l', h => by
    simp only [mapOption] at h
    cases h
    rfl
  | a :: l, l', h => by
    simp only [mapOption] at h
    cases hfa : f a with
    | none => rw [hfa] at h; cases h
    | some b =>
      cases hml : mapOption f l with
      | none => rw [hfa, hml] at h; cases h
      | some bs =>
        rw [hfa, hml] at h
        cases h
        simp [mapOption, hf a b hfa, mapOption_idem f hf hml]

/-- The accumulator pass `dropDupAux` keeps exactly the input elements not in `seen`. -/
theorem mem_dropDupAux [DecidableEq α] {x : α} :
    ∀ {seen l : List α}, x ∈ dropDupAux seen l ↔ x ∈ l ∧ x ∉ seen
  | seen, [] => by simp [dropDupAux]
  | seen, a :: l => by
    simp only [dropDupAux]
    by_cases ha : a ∈ seen
    · rw [if_pos ha, mem_dropDupAux]
      constructor
      · rintro ⟨h1, h2⟩
        exact ⟨List.mem_cons_of_mem a h1, h2⟩
      · rintro ⟨h1, h2⟩
        rcases List.mem_cons.mp h1 with rfl | h1'
        · exact absurd ha h2
        · exact ⟨h1', h2⟩
    · rw [if_neg ha]
      simp only [List.mem_cons, mem_dropDupAux, List.mem_cons]
      by_cases hxa : x = a
      · simp [hxa, ha]
      · simp [hxa]

/-- Deduplication keeps exactly the elements of the input. -/
theorem mem_dropDup [DecidableEq α] {x : α} {l : List α} :
    x ∈ dropDup l ↔ x ∈ l := by
  simp [dropDup, mem_dropDupAux]

/-- The accumulator pass `dropDupAux` emits no duplicates. -/
theorem nodup_dropDupAux [DecidableEq α] :
    ∀ (seen l : List α), (dropDupAux seen l).Nodup
  | seen, [] => List.nodup_nil
  | seen, a :: l => by
    simp only [dropDupAux]
    by_cases ha : a ∈ seen
    · rw [if_pos ha]
      exact nodup_dropDupAux seen l
    · rw [if_neg ha]
      refine List.nodup_cons.mpr ⟨fun hmem => ?_, nodup_dropDupAux (a :: seen) l⟩
      exact (mem_dropDupAux.mp hmem).2 (List.mem_cons_self a seen)

/-- Deduplication produces a duplicate-free table. -/
theorem nodup_dropDup [DecidableEq α] (l : List α) : (dropDup l).Nodup :=
  nodup_dropDupAux [] l

/-- The accumulator pass never increases the row count. -/
theorem length_dropDupAux_le [DecidableEq α] :
    ∀ (seen l : List α), (dropDupAux seen l).length ≤ l.length
  | seen, [] => Nat.le_refl 0
  | seen, a :: l => by
    simp only [dropDupAux]
    by_cases ha : a ∈ seen
    · rw [if_pos ha]
      exact Nat.le_succ_of_le (length_dropDupAux_le seen l)
    · rw [if_neg ha]
      simpa using Nat.succ_le_succ (length_dropDupAux_le (a :: seen) l)

/-- Deduplication never increases the row count. -/
theorem length_dropDup_le [DecidableEq α] (l : List α) :
    (dropDup l).length ≤ l.length :=
  length_dropDupAux_le [] l

/-- Attaching `GeoKey` values does not change the geography tuples. -/
theorem map_tuple_addGeoKeys (l : List GeoTuple) :
    (addGeoKeys l).map GeoDimRow.tuple = l := by
  have h : ∀ p : GeoTuple × Nat,
      GeoDimRow.tuple ⟨p.1.city, p.1.state, p.1.countryRegion,
        p.1.continent, p.2⟩ = p.1 := fun p => rfl
  simp only [addGeoKeys, List.map_map]
  calc (l.zip (List.range' 1 l.length)).map
        (GeoDimRow.tuple ∘ fun p =>
          ⟨p.1.city, p.1.state, p.1.countryRegion, p.1.continent, p.2⟩)
      = (l.zip (List.range' 1 l.length)).map Prod.fst := by
        exact List.map_congr_left fun p _ => h p
    _ = l := List.map_fst_zip l _ (by simp [List.length_range'])

/-- The `GeoKey` column of `addGeoKeys l` is exactly `1, 2, ..., len l`. -/
theorem map_geoKey_addGeoKeys (l : List GeoTuple) :
    (addGeoKeys l).map GeoDimRow.geoKey = List.range' 1 l.length := by
  simp only [addGeoKeys, List.map_map]
  calc (l.zip (List.range' 1 l.length)).map
        (GeoDimRow.geoKey ∘ fun p =>
          ⟨p.1.city, p.1.state, p.1.countryRegion, p.1.continent, p.2⟩)
      = (l.zip (List.range' 1 l.length)).map Prod.snd := by
        exact List.map_congr_left fun p _ => rfl
    _ = List.range' 1 l.length := List.map_snd_zip l _ (by simp [List.length_range'])

/-- Attaching `GeoKey` values does not change the row count. -/
theorem length_addGeoKeys (l : List GeoTuple) :
    (addGeoKeys l).length = l.length := by
  simp [addGeoKeys, List.length_zip, List.length_range']

/-- The merge predicate holds exactly when the `dim_geo` row carries the
sales row's geography tuple. -/
theorem geoMatch_eq (r : SalesRow) (g : GeoDimRow) :
    geoMatch r g = (GeoDimRow.tuple g == r.geo) := by
  rw [Bool.eq_iff_iff]
  simp only [geoMatch, Bool.and_eq_true, beq_iff_eq, GeoDimRow.tuple,
    SalesRow.geo, GeoTuple.mk.injEq]
  constructor
  · rintro ⟨⟨⟨h1, h2⟩, h3⟩, h4⟩
    exact ⟨h1.symm, h2.symm, h3.symm, h4.symm⟩
  · rintro ⟨h1, h2, h3, h4⟩
    exact ⟨⟨⟨h1.symm, h2.symm⟩, h3.symm⟩, h4.symm⟩

/-- In a table whose `f`-projection has no duplicates, filtering for a
projection value that occurs yields exactly one row. -/
theorem length_filter_proj_eq_one [DecidableEq β] (f : α → β) (l : List α)
    (hn : (l.map f).Nodup) {b : β} (hb : b ∈ l.map f) :
    (l.filter fun a => f a == b).length = 1 := by
  calc (l.filter fun a => f a == b).length
      = l.countP fun a => f a == b := (List.countP_eq_length_filter _ _).symm
    _ = (l.map f).countP fun c => c == b := by
        rw [List.countP_map]
        rfl
    _ = (l.map f).count b := rfl
    _ = 1 := List.count_eq_one_of_mem hn hb

/-- If every sales row matches exactly one `dim_geo` row, the inner merge
has exactly one output row per sales row. -/
theorem length_mergeGeo (sales : List SalesRow) (dimGeo : List GeoDimRow)
    (h : ∀ r ∈ sales, (dimGeo.filter fun g => geoMatch r g).length = 1) :
    (mergeGeo sales dimGeo).length = sales.length := by
  induction sales with
  | nil => rfl
  | cons r l ih =>
    simp only [mergeGeo, List.flatMap_cons, List.length_append,
      List.length_map] at *
    rw [h r (List.mem_cons_self r l), ih fun x hx => h x (List.mem_cons_of_mem r hx)]
    simp [Nat.add_comm]

/-- The geography tuples of the modelled `dim_geo` are exactly the
deduplicated sales geography tuples. -/
theorem dim_geo_tuples (sales : List SalesRow) (forecast : List ForecastRow) :
    (model_to_gold sales forecast).dim_geo.map GeoDimRow.tuple =
      dropDup (sales.map SalesRow.geo) := by
  simp only [model_to_gold]
  exact map_tuple_addGeoKeys _

/-- Every sales row matches exactly one `dim_geo` row: the tuples in
`dim_geo` are duplicate-free and the row's own tuple is among them. -/
theorem filter_dim_geo_eq_one (sales : List SalesRow)
    (forecast : List ForecastRow) {r : SalesRow} (hr : r ∈ sales) :
    ((model_to_gold sales forecast).dim_geo.filter
      fun g => geoMatch r g).length = 1 := by
  have htup := dim_geo_tuples sales forecast
  have hnodup : ((model_to_gold sales forecast).dim_geo.map
      GeoDimRow.tuple).Nodup := by
    rw [htup]; exact nodup_dropDup _
  have hmem : r.geo ∈ (model_to_gold sales forecast).dim_geo.map
      GeoDimRow.tuple := by
    rw [htup, mem_dropDup]
    exact List.mem_map_of_mem SalesRow.geo hr
  calc ((model_to_gold sales forecast).dim_geo.filter
        fun g => geoMatch r g).length
      = ((model_to_gold sales forecast).dim_geo.filter
          fun g => GeoDimRow.tuple g == r.geo).length := by
        exact congrArg List.length
          (List.filter_congr fun g _ => geoMatch_eq r g)
    _ = 1 := length_filter_proj_eq_one GeoDimRow.tuple _ hnodup hmem

/-- The fact table always has exactly one row per cleaned sales row. -/
theorem fact_sales_length (sales : List SalesRow)
    (forecast : List ForecastRow) :
    (model_to_gold sales forecast).fact_sales.length = sales.length := by
  have h : ∀ r ∈ sales,
      (((model_to_gold sales forecast).dim_geo).filter
        fun g => geoMatch r g).length = 1 :=
    fun r hr => filter_dim_geo_eq_one sales forecast hr
  simp only [model_to_gold] at h ⊢
  rw [List.length_map]
  exact length_mergeGeo _ _ h

/-- The parse `pd.to_datetime` fixes its own outputs (`NaT` and parsed datetimes are
returned unchanged). -/
theorem toDatetime_fix : ∀ {c d : Cell}, toDatetime c = some d → toDatetime d = some d := by
  intro c d h
  cases c with
  | null => cases h; rfl
  | date x => cases h; rfl
  | int n => cases h; rfl
  | str s =>
    simp only [toDatetime] at h
    obtain ⟨y, _, rfl⟩ := Option.map_eq_some'.mp h
    rfl

/-- The fill `fillna` is idempotent on cells. -/
theorem fillna_fillna (c : Cell) (v : String) :
    fillna (fillna c v) v = fillna c v := by
  cases c <;> rfl

/-- The coercion `astype(int)` fixes its own outputs (they are always integers). -/
theorem astypeInt_fix : ∀ {c d : Cell}, astypeInt c = some d → astypeInt d = some d := by
  intro c d h
  cases c with
  | null => cases h
  | int n => cases h; rfl
  | date x => cases h; rfl
  | str s =>
    simp only [astypeInt] at h
    obtain ⟨y, _, rfl⟩ := Option.map_eq_some'.mp h
    rfl

/-- Cleaning a sales row it already cleaned changes nothing. -/
theorem cleanSalesRow_fix {r r' : SalesRow} (h : cleanSalesRow r = some r') :
    cleanSalesRow r' = some r' := by
  obtain ⟨pk, pn, br, co, sc, ca, ck, cc, nm, ed, oc, ci, st, cr, ct, od, qt, np⟩ := r
  simp only [cleanSalesRow] at h
  obtain ⟨d, hd, rfl⟩ := Option.map_eq_some'.mp h
  simp [cleanSalesRow, toDatetime_fix hd, fillna_fillna]

/-- Cleaning a forecast row it already cleaned changes nothing. -/
theorem cleanForecastRow_fix {r r' : ForecastRow}
    (h : cleanForecastRow r = some r') : cleanForecastRow r' = some r' := by
  obtain ⟨pk, yr⟩ := r
  simp only [cleanForecastRow] at h
  obtain ⟨y, hy, rfl⟩ := Option.map_eq_some'.mp h
  simp [cleanForecastRow, astypeInt_fix hy]

/-- Unfolding of `List.product` on a cons cell. -/
theorem product_cons_eq (a : α) (l₁ : List α) (l₂ : List β) :
    (a :: l₁).product l₂ = l₂.map (Prod.mk a) ++ l₁.product l₂ := rfl

/-- Filtering a Cartesian product is a nested loop: for each left row,
keep the right rows that pass the pairwise predicate. -/
theorem filter_product (l₁ : List α) (l₂ : List β) (p : α × β → Bool) :
    (l₁.product l₂).filter p =
      l₁.flatMap fun a => (l₂.filter fun b => p (a, b)).map (Prod.mk a) := by
  induction l₁ with
  | nil => rfl
  | cons a l ih =>
    simp only [product_cons_eq, List.filter_append, ih, List.flatMap_cons]
    congr 1
    exact List.filter_map (Prod.mk a) l₂

/-- The spec's product-filter-project formulation of the inner join agrees
with the embedded `merge`-then-project computation. -/
theorem specFactSales_eq (sales : List SalesRow) (dimGeo : List GeoDimRow) :
    specFactSales sales dimGeo = (mergeGeo sales dimGeo).map projectFact := by
  simp only [specFactSales, filter_product, mergeGeo, List.map_flatMap,
    List.map_map]
  rfl

/-- Flip an if-then-else over a negated condition. -/
theorem ite_ne_flip {c : Prop} [Decidable c] (a b : α) :
    (if ¬c then a else b) = if c then b else a := by
  by_cases h : c <;> simp [h]

/-- C1: if every cleaned sales row's geography tuple appears in `dim_geo`
(which holds by construction), the fact table produced by
`model_to_gold` has exactly as many rows as the cleaned sales table. -/
theorem fact_count_preserved_when_geo_covered (sales : List SalesRow)
    (forecast : List ForecastRow)
    (_h : ∀ r ∈ sales,
      r.geo ∈ (model_to_gold sales forecast).dim_geo.map GeoDimRow.tuple) :
    (model_to_gold sales forecast).fact_sales.length = sales.length :=
  fact_sales_length sales forecast

/-- Witness for C1 on the one-row sample table. -/
theorem fact_count_preserved_when_geo_covered_witness :
    (∀ r ∈ [rRaw],
      r.geo ∈ (model_to_gold [rRaw] []).dim_geo.map GeoDimRow.tuple) ∧
      (model_to_gold [rRaw] []).fact_sales.length = [rRaw].length :=
  ⟨by decide, fact_count_preserved_when_geo_covered [rRaw] [] (by decide)⟩

/-- C2: the fact table `model_to_gold` builds is exactly the equality
inner join of the cleaned sales rows against `dim_geo` on all four
geography columns simultaneously (the Cartesian product filtered by
simultaneous equality), projected to
`{ProductKey, CustomerKey, GeoKey, OrderDate, Quantity, Net Price}`. -/
theorem fact_sales_eq_spec_inner_join (sales : List SalesRow)
    (forecast : List ForecastRow) :
    (model_to_gold sales forecast).fact_sales =
      specFactSales sales (model_to_gold sales forecast).dim_geo := by
  simp only [model_to_gold]
  exact (specFactSales_eq sales _).symm

/-- C3: the `GeoKey` column of `dim_geo` is the contiguous sequence
`1..len(dim_geo)` with no duplicates, and the keys are attached to the
distinct geography tuples in first-appearance order after
deduplication. -/
theorem geoKey_contiguous_first_appearance (sales : List SalesRow)
    (forecast : List ForecastRow) :
    (model_to_gold sales forecast).dim_geo.map GeoDimRow.geoKey =
        List.range' 1 (model_to_gold sales forecast).dim_geo.length ∧
      ((model_to_gold sales forecast).dim_geo.map GeoDimRow.geoKey).Nodup ∧
      (model_to_gold sales forecast).dim_geo.map GeoDimRow.tuple =
        dropDup (sales.map SalesRow.geo) := by
  refine ⟨?_, ?_, dim_geo_tuples sales forecast⟩
  · simp only [model_to_gold]
    rw [map_geoKey_addGeoKeys, length_addGeoKeys]
  · simp only [model_to_gold]
    rw [map_geoKey_addGeoKeys]
    exact List.nodup_range' _ _

/-- C4: after modelling, `model_to_gold` compares the fact row count with
the pre-join sales row count: equality yields the success diagnostic,
inequality yields a warning carrying exactly the number of rows lost
(pre-join count minus fact count); the diagnostic is non-fatal — the
function is total and the remaining outputs (here the pass-through
forecast fact table) are produced in either case. -/
theorem integrity_check_diagnostic (sales : List SalesRow)
    (forecast : List ForecastRow) :
    (model_to_gold sales forecast).diag =
        (if (model_to_gold sales forecast).fact_sales.length = sales.length
          then Diag.passed
          else Diag.warning ((sales.length : Int) -
            ((model_to_gold sales forecast).fact_sales.length : Int))) ∧
      (model_to_gold sales forecast).fact_forecast = forecast := by
  constructor
  · simp only [model_to_gold]
    exact ite_ne_flip _ _
  · rfl

/-- C5 as stated is false: the Cleaner does not leave every non-filled
field unchanged — it parses the `OrderDate` field, so a cleaned row's
order date differs from the raw one. Counterexample: the sample raw row
`rRaw`. -/
theorem cleaner_changes_order_date :
    ¬ (∀ (sales : List SalesRow) (forecast : List ForecastRow) cs cf,
        transform_to_silver sales forecast = Except.ok (cs, cf) →
        ∀ (i : Nat) (hs : i < sales.length) (hc : i < cs.length),
          (cs.get ⟨i, hc⟩).orderDate = (sales.get ⟨i, hs⟩).orderDate) := by
  intro h
  have h2 := h [rRaw] [] [rClean] [] rfl 0 (by decide) (by decide)
  exact absurd h2 (by decide)

/-- C5 (amended): on success the Cleaner fills null `Name` with
`"Unknown"`, null `Education`/`Occupation` with `"Not Provided"`, parses
`OrderDate` and coerces the forecast `Year` to an integer, and leaves
every other field of every row unchanged (row counts included). -/
theorem cleaner_fill_rules (sales : List SalesRow)
    (forecast : List ForecastRow) (cs : List SalesRow)
    (cf : List ForecastRow)
    (h : transform_to_silver sales forecast = Except.ok (cs, cf)) :
    cs.length = sales.length ∧ cf.length = forecast.length ∧
      (∀ (i : Nat) (hs : i < sales.length) (hc : i < cs.length),
        cleanedRowSpec (sales.get ⟨i, hs⟩) (cs.get ⟨i, hc⟩)) ∧
      (∀ (i : Nat) (hf : i < forecast.length) (hc : i < cf.length),
        cleanedForecastSpec (forecast.get ⟨i, hf⟩) (cf.get ⟨i, hc⟩)) := by
  unfold transform_to_silver at h
  cases hms : mapOption cleanSalesRow sales with
  | none => rw [hms] at h; cases h
  | some cs0 =>
    rw [hms] at h
    cases hmf : mapOption cleanForecastRow forecast with
    | none => rw [hmf] at h; cases h
    | some cf0 =>
      rw [hmf] at h
      cases h
      refine ⟨mapOption_length _ hms, mapOption_length _ hmf, ?_, ?_⟩
      · intro i hs hc
        have hrow := mapOption_get _ hms i hs hc
        simp only [cleanSalesRow] at hrow
        obtain ⟨d, hd, hback⟩ := Option.map_eq_some'.mp hrow
        rw [← hback]
        exact ⟨hd, rfl, rfl, rfl, rfl, rfl, rfl, rfl, rfl, rfl, rfl, rfl,
          rfl, rfl, rfl, rfl, rfl, rfl⟩
      · intro i hf hc
        have hrow := mapOption_get _ hmf i hf hc
        simp only [cleanForecastRow] at hrow
        obtain ⟨y, hy, hback⟩ := Option.map_eq_some'.mp hrow
        rw [← hback]
        exact ⟨hy, rfl⟩

/-- Witness for C5 (amended) on concrete one-row tables. -/
theorem cleaner_fill_rules_witness :
    cleanedRowSpec rRaw rClean ∧ cleanedForecastSpec fYear fYear :=
  ⟨(cleaner_fill_rules [rRaw] [fYear] [rClean] [fYear] rfl).2.2.1 0
      (by decide) (by decide),
    (cleaner_fill_rules [rRaw] [fYear] [rClean] [fYear] rfl).2.2.2 0
      (by decide) (by decide)⟩

/-- C6: the Cleaner is idempotent — running it again on tables it has
already cleaned succeeds and returns exactly the same tables. -/
theorem cleaner_idempotent (sales : List SalesRow)
    (forecast : List ForecastRow) (cs : List SalesRow)
    (cf : List ForecastRow)
    (h : transform_to_silver sales forecast = Except.ok (cs, cf)) :
    transform_to_silver cs cf = Except.ok (cs, cf) := by
  unfold transform_to_silver at h
  cases hms : mapOption cleanSalesRow sales with
  | none => rw [hms] at h; cases h
  | some cs0 =>
    rw [hms] at h
    cases hmf : mapOption cleanForecastRow forecast with
    | none => rw [hmf] at h; cases h
    | some cf0 =>
      rw [hmf] at h
      cases h
      have h1 : mapOption cleanSalesRow cs = some cs :=
        mapOption_idem _ (fun a b hb => cleanSalesRow_fix hb) hms
      have h2 : mapOption cleanForecastRow cf = some cf :=
        mapOption_idem _ (fun a b hb => cleanForecastRow_fix hb) hmf
      simp [transform_to_silver, h1, h2]

/-- Witness for C6: cleaning the already-cleaned one-row tables again
changes nothing. -/
theorem cleaner_idempotent_witness :
    transform_to_silver [rClean] [fYear] = Except.ok ([rClean], [fYear]) :=
  cleaner_idempotent [rRaw] [fYear] [rClean] [fYear] rfl

/-- C7: each of the three dimension tables is no larger than the cleaned
sales table that fed it (deduplication never increases cardinality). -/
theorem dims_le_sales_length (sales : List SalesRow)
    (forecast : List ForecastRow) :
    (model_to_gold sales forecast).dim_product.length ≤ sales.length ∧
      (model_to_gold sales forecast).dim_customer.length ≤ sales.length ∧
      (model_to_gold sales forecast).dim_geo.length ≤ sales.length := by
  refine ⟨?_, ?_, ?_⟩ <;> simp only [model_to_gold]
  · have h := length_dropDup_le (sales.map SalesRow.productDim)
    rwa [List.length_map] at h
  · have h := length_dropDup_le (sales.map SalesRow.customerDim)
    rwa [List.length_map] at h
  · rw [length_addGeoKeys]
    have h := length_dropDup_le (sales.map SalesRow.geo)
    rwa [List.length_map] at h

/-- C8: the Cleaner aborts with an error whenever some sales order date
is unparseable or some forecast `Year` is not integer-representable, and
under these conditions it never returns cleaned tables. -/
theorem cleaner_fails_on_bad_values (sales : List SalesRow)
    (forecast : List ForecastRow)
    (h : (∃ r ∈ sales, toDatetime r.orderDate = none) ∨
      (∃ r ∈ forecast, astypeInt r.year = none)) :
    (∃ e, transform_to_silver sales forecast = Except.error e) ∧
      ∀ cs cf, transform_to_silver sales forecast ≠ Except.ok (cs, cf) := by
  have hmain : ∃ e, transform_to_silver sales forecast = Except.error e := by
    rcases h with ⟨r, hr, hno⟩ | ⟨r, hr, hno⟩
    · have hs : mapOption cleanSalesRow sales = none :=
        mapOption_eq_none _ ⟨r, hr, by simp [cleanSalesRow, hno]⟩
      exact ⟨CleanError.malformedDate, by simp [transform_to_silver, hs]⟩
    · have hf : mapOption cleanForecastRow forecast = none :=
        mapOption_eq_none _ ⟨r, hr, by simp [cleanForecastRow, hno]⟩
      cases hms : mapOption cleanSalesRow sales with
      | none =>
        exact ⟨CleanError.malformedDate, by simp [transform_to_silver, hms]⟩
      | some cs =>
        exact ⟨CleanError.typeCoercion,
          by simp [transform_to_silver, hms, hf]⟩
  refine ⟨hmain, ?_⟩
  obtain ⟨e, he⟩ := hmain
  intro cs cf hok
  rw [he] at hok
  cases hok

/-- Witness for C8: an unparseable order-date string aborts the run, and
so does a `NaN` forecast `Year`. -/
theorem cleaner_fails_on_bad_values_witness :
    (∃ e, transform_to_silver [rBadDate] [fYear] = Except.error e) ∧
      (∃ e, transform_to_silver [rRaw] [fNullYear] = Except.error e) :=
  ⟨(cleaner_fails_on_bad_values [rBadDate] [fYear]
      (Or.inl ⟨rBadDate, by simp, by decide⟩)).1,
    (cleaner_fails_on_bad_values [rRaw] [fNullYear]
      (Or.inr ⟨fNullYear, by simp, by decide⟩)).1⟩

/-- C9 as stated is false: `transform_to_silver` mutates the DataFrames
it receives (pandas column assignment writes into the object), so after a
successful cleaning run the caller's raw tables are no longer what the
Extractor produced. Counterexample: a raw row with a null `Name`. -/
theorem cleaner_mutates_raw :
    ¬ (∀ st : Store,
        (transformInPlace st).1 = none → (transformInPlace st).2 = st) := by
  intro h
  exact absurd (h ⟨[rRaw], [fYear]⟩ rfl) (by decide)

/-- C9 (amended): the Cleaner mutates the raw tables in place — after a
successful run the caller's raw references hold exactly the cleaned
tables the Cleaner returns, not the original raw contents. -/
theorem cleaner_in_place (st : Store) (cs : List SalesRow)
    (cf : List ForecastRow)
    (h : transform_to_silver st.sales st.forecast = Except.ok (cs, cf)) :
    transformInPlace st = (none, ⟨cs, cf⟩) := by
  unfold transform_to_silver at h
  unfold transformInPlace
  cases hms : mapOption cleanSalesRow st.sales with
  | none => rw [hms] at h; cases h
  | some cs0 =>
    rw [hms] at h
    cases hmf : mapOption cleanForecastRow st.forecast with
    | none => rw [hmf] at h; cases h
    | some cf0 =>
      rw [hmf] at h
      cases h
      rfl

/-- Witness for C9 (amended) on a concrete store. -/
theorem cleaner_in_place_witness :
    transformInPlace ⟨[rRaw], [fYear]⟩ = (none, ⟨[rClean], [fYear]⟩) :=
  cleaner_in_place ⟨[rRaw], [fYear]⟩ [rClean] [fYear] rfl

/-- C10 as stated is false: the fact row count is not the count of sales
rows with all-non-null geography fields, because pandas matches null join
keys with each other — a row whose `City` is null still joins to its
(null-carrying) `dim_geo` row. Counterexample: one sales row with a null
`City` yields a one-row fact table, while zero rows have all geography
fields non-null. -/
theorem fact_includes_null_geo_rows :
    ¬ (∀ (sales : List SalesRow) (forecast : List ForecastRow),
        (model_to_gold sales forecast).fact_sales.length =
          (sales.filter fun r =>
            !(r.city == Cell.null) && !(r.state == Cell.null) &&
              !(r.countryRegion == Cell.null) &&
              !(r.continent == Cell.null)).length) := by
  intro h
  exact absurd (h [rNullGeo] []) (by decide)

/-- C10 (amended): the fact table always has exactly one row per cleaned
sales row — rows with null geography fields are matched too, since the
merge treats null keys as equal — and in particular
`len(fact_sales) ≤ len(cleaned_sales)` always holds. -/
theorem fact_length_always_eq (sales : List SalesRow)
    (forecast : List ForecastRow) :
    (model_to_gold sales forecast).fact_sales.length = sales.length ∧
      (model_to_gold sales forecast).fact_sales.length ≤ sales.length :=
  ⟨fact_sales_length sales forecast,
    Nat.le_of_eq (fact_sales_length sales forecast)⟩

end ETL
